import Mathlib

/-!
Verification development for the sophos-firewall-manager repository.

Python strings are modelled as lists of code points (`PyStr := List Nat`).
Pure helpers mirror the Python string operations the source uses
(`str.strip`, `str.lower`, `str.split`, `str.removeprefix`, `str.rstrip`,
substring tests).  The domain entities, validators, caches and services are
shallow embeddings of the corresponding classes in `src/`; each definition
carries a comment naming the source location it embeds.  Case mapping and
character classes are modelled over ASCII, matching the inputs the domain
handles (the Python originals are Unicode-aware, which the source never
relies on).
-/

namespace SFM

/-- Model of a Python `str`: its list of code points. -/
abbrev PyStr := List Nat

/-- Code points of a Lean string literal, for writing concrete inputs. -/
def pyOfString (s : String) : PyStr :=
  s.data.map Char.toNat

/-- The ASCII whitespace characters `str.strip` removes
(space, tab, newline, carriage return, vertical tab, form feed). -/
def pyIsSpace (n : Nat) : Bool :=
  n = 32 || n = 9 || n = 10 || n = 13 || n = 11 || n = 12

/-- Python `str.strip()`: drop leading and trailing whitespace. -/
def pyStrip (l : PyStr) : PyStr :=
  ((l.dropWhile pyIsSpace).reverse.dropWhile pyIsSpace).reverse

/-- Python `str.lower()` on one code point (ASCII letters only). -/
def pyLower (n : Nat) : Nat :=
  if 65 ≤ n ∧ n ≤ 90 then n + 32 else n

/-- Python `s.split(sep)` for a one-character separator: splitting the empty
string gives one empty part, and empty parts between separators are kept. -/
def pySplit (sep : Nat) : PyStr → List PyStr
  | [] => [[]]
  | c :: rest =>
    if c = sep then
      [] :: pySplit sep rest
    else
      match pySplit sep rest with
      | g :: gs => (c :: g) :: gs
      | [] => [[c]]

/-- Python `s.rstrip(ch)` for a one-character argument: drop every trailing
occurrence. -/
def pyRstrip (x : Nat) (l : PyStr) : PyStr :=
  (l.reverse.dropWhile (fun c => c = x)).reverse

/-- Drop at most one trailing occurrence of `x` (the language of the FQDN
pattern treats exactly one trailing dot as optional). -/
def dropOneTrailing (x : Nat) (l : PyStr) : PyStr :=
  if l.getLast? = some x then l.dropLast else l

/-- Python `s.startswith(pat)` on code-point lists. -/
def pyStartsWith : PyStr → PyStr → Bool
  | [], _ => true
  | _ :: _, [] => false
  | p :: ps, c :: cs => p = c && pyStartsWith ps cs

/-- Python `pat in s` (substring containment) on code-point lists. -/
def pyHasSub (pat : PyStr) : PyStr → Bool
  | [] => pat.isEmpty
  | c :: cs => pyStartsWith pat (c :: cs) || pyHasSub pat cs

/-- ASCII decimal digit. -/
def isDigit (n : Nat) : Bool := 48 ≤ n && n ≤ 57

/-- ASCII letter. -/
def isAlpha (n : Nat) : Bool := (65 ≤ n && n ≤ 90) || (97 ≤ n && n ≤ 122)

/-- ASCII hexadecimal digit. -/
def isHexDigit (n : Nat) : Bool :=
  isDigit n || (65 ≤ n && n ≤ 70) || (97 ≤ n && n ≤ 102)

/-- Numeric value of a decimal digit string. -/
def natOfDigits (l : PyStr) : Nat :=
  l.foldl (fun a d => a * 10 + (d - 48)) 0

/-- Numeric value of a hexadecimal digit string (either letter case). -/
def natOfHexDigits (l : PyStr) : Nat :=
  l.foldl
    (fun a d =>
      a * 16 + (if d ≤ 57 then d - 48 else if d ≤ 70 then d - 55 else d - 87))
    0

/-- Decimal rendering of a natural number (fueled recursion; the fuel always
suffices for the octets and prefix lengths rendered here). -/
def natToDecAux : Nat → Nat → PyStr
  | 0, n => [48 + n % 10]
  | fuel + 1, n => if n < 10 then [48 + n] else natToDecAux fuel (n / 10) ++ [48 + n % 10]

/-- Decimal rendering of a natural number, as Python `str(int)`. -/
def natToDec (n : Nat) : PyStr := natToDecAux 40 n

/-- Lower-case hexadecimal rendering without leading zeros, as Python
formatting of an int with the x conversion. -/
def natToHexAux : Nat → Nat → PyStr
  | 0, n => [if n % 16 < 10 then 48 + n % 16 else 87 + n % 16]
  | fuel + 1, n =>
    if n < 16 then [if n < 10 then 48 + n else 87 + n]
    else natToHexAux fuel (n / 16) ++ [if n % 16 < 10 then 48 + n % 16 else 87 + n % 16]

/-- Lower-case hexadecimal rendering of a natural number. -/
def natToHex (n : Nat) : PyStr := natToHexAux 40 n

/-! ## Domain entities (src/src/domain/entities.py) -/

/-- RecordType (entities.py lines 8-14). -/
inductive RecordType where
  | FQDN
  | IP_ADDRESS
  | NETWORK_CIDR
  | INVALID
deriving DecidableEq, Fintype

/-- OperationStatus (entities.py lines 17-23): the enumeration has exactly
these four members; no Updated member is declared. -/
inductive OperationStatus where
  | SUCCESS
  | ALREADY_EXISTS
  | FAILED
  | SKIPPED
deriving DecidableEq, Fintype

/-- NetworkRecord (entities.py lines 26-56): a frozen value plus its type. -/
structure NetworkRecord where
  value : PyStr
  record_type : RecordType
deriving DecidableEq

/-- NetworkRecord.is_valid (entities.py lines 38-41). -/
def NetworkRecord.is_valid (r : NetworkRecord) : Bool :=
  r.record_type ≠ RecordType.INVALID

/-- NetworkRecord.is_fqdn (entities.py lines 43-46). -/
def NetworkRecord.is_fqdn (r : NetworkRecord) : Bool :=
  r.record_type = RecordType.FQDN

/-- NetworkRecord.is_ip_address (entities.py lines 48-51). -/
def NetworkRecord.is_ip_address (r : NetworkRecord) : Bool :=
  r.record_type = RecordType.IP_ADDRESS

/-- NetworkRecord.is_network (entities.py lines 53-56). -/
def NetworkRecord.is_network (r : NetworkRecord) : Bool :=
  r.record_type = RecordType.NETWORK_CIDR

/-- OperationResult (entities.py lines 72-93). -/
structure OperationResult where
  record : NetworkRecord
  status : OperationStatus
  status_code : String
  message : String
deriving DecidableEq

/-- OperationResult.succeeded (entities.py lines 85-88). -/
def OperationResult.succeeded (r : OperationResult) : Bool :=
  r.status = OperationStatus.SUCCESS

/-- ProcessingSummary (entities.py lines 96-108): the dataclass declares
exactly the five counters total, successful, already_exists, failed and
skipped; it has no updated counter. -/
structure ProcessingSummary where
  total : Nat := 0
  successful : Nat := 0
  already_exists : Nat := 0
  failed : Nat := 0
  skipped : Nat := 0
deriving DecidableEq

/-- ProcessingSummary.record_result (entities.py lines 110-121). -/
def ProcessingSummary.record_result (s : ProcessingSummary) (r : OperationResult) :
    ProcessingSummary :=
  let s := { s with total := s.total + 1 }
  match r.status with
  | OperationStatus.SUCCESS => { s with successful := s.successful + 1 }
  | OperationStatus.ALREADY_EXISTS => { s with already_exists := s.already_exists + 1 }
  | OperationStatus.FAILED => { s with failed := s.failed + 1 }
  | OperationStatus.SKIPPED => { s with skipped := s.skipped + 1 }

/-- Guarded rational division modelling Python true division, whose
evaluation with a zero divisor raises ZeroDivisionError (`none`). -/
def pyDiv (a b : Nat) : Option Rat :=
  if b = 0 then none else some ((a : Rat) / (b : Rat))

/-- ProcessingSummary.success_rate (entities.py lines 123-128): the guard on
total precedes the division. -/
def ProcessingSummary.success_rate (s : ProcessingSummary) : Option Rat :=
  if s.total = 0 then some 0
  else (pyDiv s.successful s.total).map (fun q => q * 100)

/-! ## FQDN validation (src/src/domain/validators.py lines 20-63)

The compiled pattern on line 31 accepts, case-insensitively, a sequence of
labels separated by dots with one optional trailing dot, where a label is 1
to 63 characters drawn from letters, digits and the hyphen, neither starting
nor ending with a hyphen.  Since the dot cannot occur inside a label, a
string matches exactly when, after removing at most one trailing dot, every
dot-separated part is such a label.  A Python dollar anchor also matches
just before one trailing newline, and that case is kept. -/

/-- One character of the label class of the pattern (hyphen, letter, digit;
IGNORECASE makes both letter cases acceptable). -/
def isLabelChar (n : Nat) : Bool :=
  n = 45 || isAlpha n || isDigit n

/-- One label of the pattern: 1-63 label characters, no leading or trailing
hyphen. -/
def labelOk (l : PyStr) : Bool :=
  decide (l ≠ []) && decide (l.length ≤ 63) && l.all isLabelChar &&
    decide (l.head? ≠ some 45) && decide (l.getLast? ≠ some 45)

/-- Membership in the language of the pattern of validators.py line 31. -/
def fqdnPatternMatch (l : PyStr) : Bool :=
  (pySplit 46 (dropOneTrailing 46 l)).all labelOk

/-- `re.match` against the pattern: the dollar anchor also matches right
before a single trailing newline. -/
def fqdnPatternSearch (l : PyStr) : Bool :=
  fqdnPatternMatch l || (decide (l.getLast? = some 10) && fqdnPatternMatch l.dropLast)

/-- The body of FQDNValidator.is_valid after normalisation
(validators.py lines 53-63): length check, pattern check, label count. -/
def fqdnCheck (n : PyStr) : Bool :=
  if (pyRstrip 46 n).length > 253 then false
  else if ¬ fqdnPatternSearch n then false
  else decide ((pyRstrip 46 n).count 46 + 1 ≥ 2)

/-- Python `s.removeprefix` applied to the two-character wildcard marker
(validators.py line 51): when the string starts with star-dot, those two
characters are removed once. -/
def dropWildcard (l : PyStr) : PyStr :=
  if l.take 2 = [42, 46] then l.drop 2 else l

/-- FQDNValidator.is_valid (validators.py lines 35-63). -/
def FQDNValidator.is_valid (l : PyStr) : Bool :=
  if l = [] then false
  else fqdnCheck ((dropWildcard l).map pyLower)

/-! ## IP address and network parsing

Models of the parts of Python ipaddress that the source reaches through
pydantic IPvAnyAddress / IPvAnyNetwork (validators.py lines 66-119) and
through `ipaddress.ip_network` (cache_service.py line 149,
firewall_client.py lines 419 and 525).  Parsing follows CPython: an IPv4
octet is 1-3 ASCII digits, at most 255, with no leading zero; an IPv4
network prefix is either a decimal prefix length, a netmask or a hostmask;
an IPv6 address is colon-separated hextets with at most one double colon,
an optional embedded IPv4 tail and an optional nonempty scope suffix after
a percent sign; an IPv6 network prefix is a decimal prefix length only.
Strict network construction rejects an address with host bits set below the
mask; non-strict construction clears them. -/

/-- One dotted-quad octet (ipaddress._BaseV4._parse_octet). -/
def parseOctet (p : PyStr) : Option Nat :=
  if p = [] then none
  else if ¬ p.all isDigit then none
  else if p.length > 3 then none
  else if p.length > 1 ∧ p.head? = some 48 then none
  else
    let v := natOfDigits p
    if v > 255 then none else some v

/-- Dotted-quad to 32-bit value (ipaddress._BaseV4._ip_int_from_string). -/
def parseIPv4Int (s : PyStr) : Option Nat :=
  let parts := pySplit 46 s
  if parts.length ≠ 4 then none
  else
    match parts.mapM parseOctet with
    | some [a, b, c, d] => some (((a * 256 + b) * 256 + c) * 256 + d)
    | _ => none

/-- IPv4Address on a string: a slash is rejected up front, then the
dotted-quad is parsed. -/
def parseIPv4Address (s : PyStr) : Option Nat :=
  if s.contains 47 then none else parseIPv4Int s

/-- A decimal prefix-length string, at most the family maximum
(ipaddress._prefix_from_prefix_string; ASCII digits only, so leading zeros
are tolerated). -/
def parsePrefixLen (s : PyStr) (maxLen : Nat) : Option Nat :=
  if s = [] then none
  else if ¬ s.all isDigit then none
  else
    let v := natOfDigits s
    if v ≤ maxLen then some v else none

/-- Count of trailing zero bits of a positive number, fueled. -/
def trailingZerosAux : Nat → Nat → Nat
  | 0, _ => 0
  | fuel + 1, n => if n % 2 = 1 then 0 else 1 + trailingZerosAux fuel (n / 2)

/-- Prefix length of a netmask value: the number must consist of prefixlen
leading one bits followed by zero bits
(ipaddress._prefix_from_ip_int). -/
def prefixFromIpInt (ip : Nat) (w : Nat) : Option Nat :=
  let tz := if ip = 0 then w else min w (trailingZerosAux w ip)
  let p := w - tz
  if ip >>> tz = 2 ^ p - 1 then some p else none

/-- The IPv4 netmask argument: a prefix length, a dotted netmask, or a
dotted hostmask (ipaddress._BaseV4._make_netmask). -/
def ipv4MakeNetmask (s : PyStr) : Option Nat :=
  match parsePrefixLen s 32 with
  | some p => some p
  | none =>
    match parseIPv4Int s with
    | none => none
    | some m =>
      match prefixFromIpInt m 32 with
      | some p => some p
      | none => prefixFromIpInt (m ^^^ (2 ^ 32 - 1)) 32

/-- The all-ones mask of width `pl` inside a `w`-bit word. -/
def maskOf (w pl : Nat) : Nat :=
  (2 ^ pl - 1) <<< (w - pl)

/-- IPv4Network on a string (ipaddress.IPv4Network.__init__): at most one
slash, address then netmask, host bits rejected when strict and cleared
otherwise.  Returns the network address value and the prefix length. -/
def ipv4Network (strict : Bool) (s : PyStr) : Option (Nat × Nat) :=
  match pySplit 47 s with
  | [a] => (parseIPv4Int a).map (fun ip => (ip, 32))
  | [a, p] =>
    match parseIPv4Int a, ipv4MakeNetmask p with
    | some ip, some pl =>
      let m := maskOf 32 pl
      if ip &&& m = ip then some (ip, pl)
      else if strict then none
      else some (ip &&& m, pl)
    | _, _ => none
  | _ => none

/-- One hextet: 1-4 hexadecimal digits
(ipaddress._BaseV6._parse_hextet; the empty string fails in int()). -/
def parseHextet (p : PyStr) : Option Nat :=
  if ¬ p.all isHexDigit then none
  else if p.length > 4 then none
  else if p = [] then none
  else some (natOfHexDigits p)

/-- Indices of empty parts strictly inside the list (candidates for the
double-colon skip in ipaddress._BaseV6._ip_int_from_string). -/
def interiorEmpties (parts : List PyStr) : List Nat :=
  (List.range parts.length).filter
    (fun i => 0 < i ∧ i + 1 < parts.length ∧ parts.getD i [37] = [])

/-- Fold hextet values into a number, 16 bits at a time. -/
def foldHextets (vs : List Nat) : Nat :=
  vs.foldl (fun a v => a * 65536 + v) 0

/-- IPv6 address string to 128-bit value
(ipaddress._BaseV6._ip_int_from_string): colon-split parts, optional
embedded IPv4 tail, at most one interior empty part standing for the double
colon, leading and trailing single colons only as part of it. -/
def parseIPv6Int (s : PyStr) : Option Nat :=
  let parts0 := pySplit 58 s
  if parts0.length < 3 then none
  else
    let last0 := parts0.getLastD []
    let withV4 : Option (List PyStr) :=
      if last0.contains 46 then
        (parseIPv4Int last0).map
          (fun v => parts0.dropLast ++ [natToHex (v >>> 16), natToHex (v &&& 65535)])
      else some parts0
    match withV4 with
    | none => none
    | some parts =>
      if parts.length > 9 then none
      else
        let n := parts.length
        match interiorEmpties parts with
        | [] =>
          if n ≠ 8 then none
          else if parts.headD [37] = [] then none
          else if parts.getLastD [37] = [] then none
          else (parts.mapM parseHextet).map foldHextets
        | [i] =>
          let hi0 := i
          let lo0 := n - i - 1
          let headEmpty := parts.headD [37] = []
          let lastEmpty := parts.getLastD [37] = []
          let hi := if headEmpty then hi0 - 1 else hi0
          let lo := if lastEmpty then lo0 - 1 else lo0
          if headEmpty ∧ hi0 - 1 ≠ 0 then none
          else if lastEmpty ∧ lo0 - 1 ≠ 0 then none
          else if 8 < hi + lo + 1 then none
          else
            let skipped := 8 - (hi + lo)
            match (parts.take hi).mapM parseHextet, (parts.drop (n - lo)).mapM parseHextet with
            | some hv, some lv =>
              some ((foldHextets hv <<< (16 * (skipped + lo))) + foldHextets lv)
            | _, _ => none
        | _ => none

/-- Split off an IPv6 scope suffix at the first percent sign
(ipaddress.IPv6Address._split_scope_id): the suffix must be nonempty and
contain no further percent sign. -/
def splitScope (s : PyStr) : Option (PyStr × Option PyStr) :=
  match pySplit 37 s with
  | [a] => some (a, none)
  | a :: sc :: rest =>
    let scope := (rest.foldl (fun acc p => acc ++ [37] ++ p) sc)
    if scope = [] ∨ scope.contains 37 then none else some (a, some scope)
  | [] => none

/-- IPv6Address on a string: a slash is rejected, a scope suffix is split
off, and the rest is parsed. -/
def parseIPv6Address (s : PyStr) : Option Nat :=
  if s.contains 47 then none
  else
    match splitScope s with
    | none => none
    | some (a, _) => parseIPv6Int a

/-- IPv6Network on a string (ipaddress.IPv6Network.__init__): at most one
slash, a scoped address, a decimal prefix length, strict or clearing host
bits.  Returns network value, scope and prefix length; clearing host bits
rebuilds the address from the masked value, which drops the scope. -/
def ipv6Network (strict : Bool) (s : PyStr) : Option (Nat × Option PyStr × Nat) :=
  let withAddr (a : PyStr) (pl : Nat) : Option (Nat × Option PyStr × Nat) :=
    match splitScope a with
    | none => none
    | some (a0, scope) =>
      match parseIPv6Int a0 with
      | none => none
      | some ip =>
        let m := maskOf 128 pl
        if ip &&& m = ip then some (ip, scope, pl)
        else if strict then none
        else some (ip &&& m, none, pl)
  match pySplit 47 s with
  | [a] => withAddr a 128
  | [a, p] =>
    match parsePrefixLen p 128 with
    | some pl => withAddr a pl
    | none => none
  | _ => none

/-- Parsed result of `ipaddress.ip_network` on a string: the IPv4 reading is
tried first, then the IPv6 one. -/
inductive NetRep where
  | v4 (ip pl : Nat)
  | v6 (ip : Nat) (scope : Option PyStr) (pl : Nat)
deriving DecidableEq

/-- `ipaddress.ip_network(s, strict)` on strings, and equally the pydantic
IPvAnyNetwork acceptance when strict. -/
def pyIpNetwork (strict : Bool) (s : PyStr) : Option NetRep :=
  match ipv4Network strict s with
  | some (ip, pl) => some (NetRep.v4 ip pl)
  | none => (ipv6Network strict s).map (fun t => NetRep.v6 t.1 t.2.1 t.2.2)

/-- Dotted-quad rendering of a 32-bit value. -/
def strIPv4 (ip : Nat) : PyStr :=
  natToDec ((ip >>> 24) &&& 255) ++ [46] ++ natToDec ((ip >>> 16) &&& 255) ++ [46] ++
    natToDec ((ip >>> 8) &&& 255) ++ [46] ++ natToDec (ip &&& 255)

/-- The eight 16-bit groups of a 128-bit value, most significant first. -/
def hextetsOf (ip : Nat) : List Nat :=
  (List.range 8).map (fun i => (ip >>> (16 * (7 - i))) &&& 65535)

/-- The first longest run of zero groups of length at least 2:
start and length (ipaddress._BaseV6._compress_hextets run search). -/
def bestZeroRun (hs : List Nat) : Nat × Nat :=
  let step := fun (st : Nat × Nat × Nat × Nat) (p : Nat × Nat) =>
    let (bs, bl, cs, cl) := st
    let (idx, h) := p
    if h = 0 then
      let cs := if cl = 0 then idx else cs
      let cl := cl + 1
      if cl > bl then (cs, cl, cs, cl) else (bs, bl, cs, cl)
    else (bs, bl, 0, 0)
  let r := hs.enum.foldl step (0, 0, 0, 0)
  (r.1, r.2.1)

/-- Compressed lower-case IPv6 rendering
(ipaddress._BaseV6._string_from_ip_int). -/
def strIPv6 (ip : Nat) : PyStr :=
  let hs := hextetsOf ip
  let (bs, bl) := bestZeroRun hs
  let groups : List PyStr := hs.map natToHex
  let pieces : List PyStr :=
    if bl > 1 then
      let before := groups.take bs
      let after := groups.drop (bs + bl)
      let tailPart := if after = [] then [[]] else after
      let headPart := if before = [] then [[]] else before
      headPart ++ [[]] ++ tailPart
    else groups
  match pieces with
  | [] => []
  | g :: gs => gs.foldl (fun acc p => acc ++ [58] ++ p) g

/-- Python `str()` of a parsed network: network address, optional scope,
slash, prefix length. -/
def strOfNetRep : NetRep → PyStr
  | NetRep.v4 ip pl => strIPv4 ip ++ [47] ++ natToDec pl
  | NetRep.v6 ip scope pl =>
    strIPv6 ip ++ (match scope with | some sc => [37] ++ sc | none => []) ++
      [47] ++ natToDec pl

/-- `str(ipaddress.ip_network(s, strict))`, the normal form the cache layer
compares (cache_service.py line 149, firewall_client.py line 525). -/
def pyIpNetworkStr (strict : Bool) (s : PyStr) : Option PyStr :=
  (pyIpNetwork strict s).map strOfNetRep

/-- IPAddressValidator.is_valid (validators.py lines 69-91): pydantic
IPvAnyAddress tries the IPv4 reading, then the IPv6 one. -/
def IPAddressValidator.is_valid (l : PyStr) : Bool :=
  if l = [] then false
  else (parseIPv4Address l).isSome || (parseIPv6Address l).isSome

/-- NetworkCIDRValidator.is_valid (validators.py lines 97-119): a slash must
be present and pydantic IPvAnyNetwork must accept, which is strict network
construction. -/
def NetworkCIDRValidator.is_valid (l : PyStr) : Bool :=
  if ¬ l.contains 47 then false
  else (pyIpNetwork true l).isSome

/-- The validator loop of classify over the already stripped value
(validators.py lines 149-153): the fixed order CIDR, IP address, FQDN,
else Invalid. -/
def classifyStripped (v : PyStr) : NetworkRecord :=
  if NetworkCIDRValidator.is_valid v then ⟨v, RecordType.NETWORK_CIDR⟩
  else if IPAddressValidator.is_valid v then ⟨v, RecordType.IP_ADDRESS⟩
  else if FQDNValidator.is_valid v then ⟨v, RecordType.FQDN⟩
  else ⟨v, RecordType.INVALID⟩

/-- RecordClassifier.classify (validators.py lines 137-153): strip, then try
the validators in the fixed priority order. -/
def RecordClassifier.classify (value : String) : NetworkRecord :=
  classifyStripped (pyStrip (pyOfString value))

/-- The FQDN acceptance condition exactly as the specification states it,
for comparison with the embedded validator: after stripping a single
leading wildcard marker and ignoring case, the string excluding an optional
trailing dot is at most 253 characters, consists of dot-separated labels of
1-63 alphanumeric-or-hyphen characters with no leading or trailing hyphen,
and has at least 2 labels. -/
def fqdnClaimValid (l : PyStr) : Bool :=
  decide ((dropOneTrailing 46 ((dropWildcard l).map pyLower)).length ≤ 253) &&
    (pySplit 46 (dropOneTrailing 46 ((dropWildcard l).map pyLower))).all labelOk &&
    decide ((pySplit 46 (dropOneTrailing 46 ((dropWildcard l).map pyLower))).length ≥ 2)

/-! ## Caches (src/src/services/cache_service.py) -/

/-- GroupMembershipCache (cache_service.py lines 10-85): member-name sets for
the two target groups plus a loaded flag. -/
structure GroupMembershipCache where
  fqdn_group_members : List PyStr := []
  ip_group_members : List PyStr := []
  loaded : Bool := false

/-- GroupMembershipCache.is_member (cache_service.py lines 49-72): the
record value is looked up verbatim in the member set of its group;
an unloaded cache answers false. -/
def GroupMembershipCache.is_member (g : GroupMembershipCache) (r : NetworkRecord) : Bool :=
  if ¬ g.loaded then false
  else if r.record_type = RecordType.FQDN then
    g.fqdn_group_members.contains r.value
  else if r.record_type = RecordType.IP_ADDRESS ∨ r.record_type = RecordType.NETWORK_CIDR then
    g.ip_group_members.contains r.value
  else false

/-- ExistingRecordsCache (cache_service.py lines 88-101): three value sets,
a loaded flag and a fetch-failed flag. -/
structure ExistingRecordsCache where
  fqdns : List PyStr := []
  ip_hosts : List PyStr := []
  networks : List PyStr := []
  loaded : Bool := false
  fetch_failed : Bool := false

/-- The three remote fetches the cache load performs, each of which may
fail (the client wrappers swallow API errors, but transport errors still
escape them, which is what the cache guards against). -/
structure FetchOutcomes where
  get_existing_fqdns : Except Unit (List PyStr)
  get_existing_ip_hosts : Except Unit (List PyStr)
  get_existing_networks : Except Unit (List PyStr)

/-- ExistingRecordsCache.load (cache_service.py lines 103-123): the three
fetches run in order inside one try block; the first failure leaves the
flags as failed and returns false, and any exception is caught. -/
def ExistingRecordsCache.load (c : ExistingRecordsCache) (cl : FetchOutcomes) :
    ExistingRecordsCache × Bool :=
  match cl.get_existing_fqdns with
  | Except.error _ => ({ c with fetch_failed := true, loaded := false }, false)
  | Except.ok f =>
    match cl.get_existing_ip_hosts with
    | Except.error _ => ({ c with fqdns := f, fetch_failed := true, loaded := false }, false)
    | Except.ok i =>
      match cl.get_existing_networks with
      | Except.error _ =>
        ({ c with fqdns := f, ip_hosts := i, fetch_failed := true, loaded := false }, false)
      | Except.ok n =>
        ({ c with fqdns := f, ip_hosts := i, networks := n,
                  loaded := true, fetch_failed := false }, true)

/-- ExistingRecordsCache.exists (cache_service.py lines 125-154): guard on
the flags, then dispatch by record type; FQDNs are lower-cased, CIDRs are
renormalised through non-strict network parsing before lookup, and an
unparseable CIDR answers false. -/
def ExistingRecordsCache.exists (c : ExistingRecordsCache) (r : NetworkRecord) : Bool :=
  if ¬ c.loaded ∨ c.fetch_failed then false
  else if r.record_type = RecordType.FQDN then
    c.fqdns.contains (r.value.map pyLower)
  else if r.record_type = RecordType.IP_ADDRESS then
    c.ip_hosts.contains r.value
  else if r.record_type = RecordType.NETWORK_CIDR then
    match pyIpNetworkStr false r.value with
    | some n => c.networks.contains n
    | none => false
  else false

/-- SophosFirewallClient._extract_network_values
(firewall_client.py lines 506-529), with the response-dictionary walking
elided: each Network-typed host contributes its address and subnet joined
by a slash, renormalised through non-strict network parsing; empty fields
and unparseable values are dropped. -/
def extract_network_values (hosts : List (PyStr × PyStr)) : List PyStr :=
  hosts.filterMap
    (fun p =>
      if p.1 ≠ [] ∧ p.2 ≠ [] then pyIpNetworkStr false (p.1 ++ [47] ++ p.2)
      else none)

/-! ## Firewall client error handling (src/src/infrastructure/firewall_client.py) -/

/-- Substring test after Python lower-casing, for the duplication markers
(firewall_client.py lines 155-159). -/
def containsAlreadyExists (text : String) : Bool :=
  let tl := (pyOfString text).map pyLower
  pyHasSub (pyOfString "already exists") tl || pyHasSub (pyOfString "same name") tl

/-- Python dict.get on a string-keyed dictionary of strings. -/
def dictGet (d : List (String × String)) (k : String) : Option String :=
  (d.find? (fun p => p.1 = k)).map (fun p => p.2)

/-- A Python `a or b or dflt` chain over dict lookups, where a missing key
and the empty string are both falsy. -/
def firstTruthy (l : List (Option String)) (dflt : String) : String :=
  match l with
  | [] => dflt
  | o :: rest =>
    match o with
    | some s => if s = "" then firstTruthy rest dflt else s
    | none => firstTruthy rest dflt

/-- A response dictionary as _parse_response consumes it: the status detail
located by _extract_status_from_response (firewall_client.py lines 161-184;
the empty list models the empty dict of line 184), and the `str()` rendering
of the whole response that the substring re-check on line 217 scans. -/
structure RespDict where
  statusDetail : List (String × String)
  raw : String
deriving DecidableEq

/-- The status-message table _STATUS_MESSAGES
(firewall_client.py lines 29-37). -/
def statusMessages : List (String × String) :=
  [("200", "Created successfully"), ("501", "Already exists"),
   ("502", "Operation failed"), ("503", "Invalid value"),
   ("504", "Missing parameter"), ("534", "Authentication failed"),
   ("unknown", "Unknown response format")]

/-- The code-to-status table _STATUS_MAPPING
(firewall_client.py lines 40-43); any other code falls back to FAILED. -/
def statusMapping (code : String) : Option OperationStatus :=
  if code = "200" then some OperationStatus.SUCCESS
  else if code = "501" then some OperationStatus.ALREADY_EXISTS
  else none

/-- The status code _parse_response settles on: the falsy-or chain over the
at-code and code keys, defaulted to unknown, then the 502-with-duplication
promotion to 501 (firewall_client.py lines 204-219). -/
def resolveCode (d : RespDict) : String :=
  let code0 := firstTruthy [dictGet d.statusDetail "@code", dictGet d.statusDetail "code"] "unknown"
  if code0 = "502" ∧ containsAlreadyExists d.raw then "501" else code0

/-- SophosFirewallClient._parse_response (firewall_client.py lines 186-233). -/
def parseResponse (d : RespDict) (record : NetworkRecord) : OperationResult :=
  let code0 := firstTruthy [dictGet d.statusDetail "@code", dictGet d.statusDetail "code"] "unknown"
  let msg0 := firstTruthy
    [dictGet d.statusDetail "#text", dictGet d.statusDetail "text",
     dictGet d.statusDetail "message"] ""
  let promoted := code0 = "502" ∧ containsAlreadyExists d.raw
  let code := if promoted then "501" else code0
  let msg1 := if promoted then "Already exists" else msg0
  let msg :=
    if msg1 = "" ∨ msg1 = "No message" then
      (dictGet statusMessages code).getD ("Operation completed with status " ++ code)
    else msg1
  let status := (statusMapping code).getD OperationStatus.FAILED
  ⟨record, status, code, msg⟩

/-- The argument payload of a SophosFirewallAPIError as _execute_operation
sees it: `msg` is `str(e.args[0])` and `asDict` is the response dictionary
when the argument is a dict or a string ast.literal_eval turns into one
(firewall_client.py lines 235-259). -/
structure ApiError where
  msg : String
  asDict : Option RespDict
deriving DecidableEq

/-- Outcome of one remote API call: a response dictionary, or an API error. -/
inductive CallOutcome where
  | ok (resp : RespDict)
  | err (e : ApiError)
deriving DecidableEq

/-- The exception _execute_operation may raise. -/
inductive FwError where
  | ipRestriction (msg : String)
deriving DecidableEq

/-- The access-restriction marker of firewall_client.py line 289
(a case-sensitive containment test). -/
def ipRestrictionMarker : PyStr := pyOfString "not allowed from the requester IP"

/-- SophosFirewallClient._execute_operation
(firewall_client.py lines 261-312): a response is parsed; an API error
raises on the access-restriction marker, is otherwise parsed as a response
dictionary when possible, and falls back to the duplication-substring test
and then to a FAILED result carrying the message. -/
def executeOperation (record : NetworkRecord) (outcome : CallOutcome) :
    Except FwError OperationResult :=
  match outcome with
  | CallOutcome.ok resp => Except.ok (parseResponse resp record)
  | CallOutcome.err e =>
    if pyHasSub ipRestrictionMarker (pyOfString e.msg) then
      Except.error (FwError.ipRestriction e.msg)
    else
      match e.asDict with
      | some d => Except.ok (parseResponse d record)
      | none =>
        if containsAlreadyExists e.msg then
          Except.ok ⟨record, OperationStatus.ALREADY_EXISTS, "501", "Already exists"⟩
        else
          Except.ok ⟨record, OperationStatus.FAILED, "502",
            if e.msg = "" then "Operation failed" else e.msg⟩

/-! ## Services (src/src/services) and orchestration (src/src/cli/commands.py) -/

/-- GroupConfiguration (group_service.py lines 10-24). -/
structure GroupConfiguration where
  base_name : String

/-- GroupConfiguration.fqdn_group_name (group_service.py lines 16-19). -/
def GroupConfiguration.fqdn_group_name (c : GroupConfiguration) : String :=
  c.base_name ++ "_FQDNHostGroup"

/-- GroupConfiguration.ip_group_name (group_service.py lines 21-24). -/
def GroupConfiguration.ip_group_name (c : GroupConfiguration) : String :=
  c.base_name ++ "_IPHostGroup"

/-- HostGroupService.get_group_for_record_type
(group_service.py lines 96-115): FQDN and IP/CIDR map to their groups; the
ValueError raised for any other type is modelled as `none`. -/
def get_group_for_record_type (c : GroupConfiguration) (t : RecordType) : Option String :=
  if t = RecordType.FQDN then some c.fqdn_group_name
  else if t = RecordType.IP_ADDRESS ∨ t = RecordType.NETWORK_CIDR then some c.ip_group_name
  else none

/-- The remote create operations the record service invokes, as an abstract
collaborator over a firewall state `σ`: each call returns the operation
result and the successor state (section 6 of the specification). -/
structure FwOps (σ : Type) where
  create_fqdn_host : NetworkRecord → String → σ → OperationResult × σ
  create_ip_host : NetworkRecord → String → σ → OperationResult × σ
  create_network : NetworkRecord → String → σ → OperationResult × σ

/-- RecordProcessingService._add_to_group (record_service.py lines 93-104):
the body is a single pass statement, so the call changes nothing and can
never raise. -/
def add_to_group {σ : Type} (record : NetworkRecord) (group : String) (s : σ) : σ :=
  s

/-- The create-call dispatch of process_record (record_service.py lines
68-81): FQDN, IP and network records call their create operation. -/
def createForRecord {σ : Type} (ops : FwOps σ) (r : NetworkRecord) (g : String) (s : σ) :
    OperationResult × σ :=
  if r.is_fqdn then ops.create_fqdn_host r g s
  else if r.is_ip_address then ops.create_ip_host r g s
  else if r.is_network then ops.create_network r g s
  else (⟨r, OperationStatus.FAILED, "000", "Unknown record type"⟩, s)

/-- RecordProcessingService.process_record (record_service.py lines 38-91):
invalid records are skipped with no call; otherwise the group is selected
(a ValueError becomes a FAILED result), the create call runs, and on
success the add-to-group step runs with its exceptions swallowed. -/
def process_record {σ : Type} (ops : FwOps σ) (cfg : GroupConfiguration) (s : σ)
    (r : NetworkRecord) : OperationResult × σ :=
  if r.is_valid = false then
    (⟨r, OperationStatus.SKIPPED, "000", "Invalid record format"⟩, s)
  else
    match get_group_for_record_type cfg r.record_type with
    | none => (⟨r, OperationStatus.FAILED, "000", "No group mapping for record type"⟩, s)
    | some g =>
      let res := createForRecord ops r g s
      let s2 := if res.1.succeeded then add_to_group r g res.2 else res.2
      (res.1, s2)

/-- One iteration of the process_batch loop (record_service.py lines
123-128): process the record, fold the result into the summary. -/
def batchStep {σ : Type} (ops : FwOps σ) (cfg : GroupConfiguration)
    (acc : ProcessingSummary × σ) (r : NetworkRecord) : ProcessingSummary × σ :=
  let pr := process_record ops cfg acc.2 r
  (acc.1.record_result pr.1, pr.2)

/-- RecordProcessingService.process_batch (record_service.py lines
106-130): records are processed in order and every result is folded into
one summary (the per-result presentation callback does not affect the
summary or the state and is elided). -/
def process_batch {σ : Type} (ops : FwOps σ) (cfg : GroupConfiguration) (s : σ)
    (records : List NetworkRecord) : ProcessingSummary × σ :=
  records.foldl (batchStep ops cfg) (({} : ProcessingSummary), s)

/-- The methods the class RecordProcessingService defines
(record_service.py lines 16-130): its constructor, process_record, the
add-to-group helper and process_batch.  No update_existing_record method is
defined anywhere in the class. -/
def recordServiceMethods : List String :=
  ["__init__", "process_record", "_add_to_group", "process_batch"]

/-- The partition of classified records into existing and new
(commands.py lines 137-142): valid records the cache knows go to existing,
everything else to new. -/
def partitionExisting (cache : ExistingRecordsCache) (records : List NetworkRecord) :
    List NetworkRecord × List NetworkRecord :=
  (records.filter (fun r => r.is_valid && cache.exists r),
   records.filter (fun r => ¬ (r.is_valid && cache.exists r)))

/-- The update-mode filter (commands.py lines 157-161): existing records
not yet members of their group are queued for the update path. -/
def recordsToUpdate (gm : GroupMembershipCache) (existing : List NetworkRecord) :
    List NetworkRecord :=
  existing.filter (fun r => ¬ gm.is_member r)

/-- The update loop of commands.py lines 239-243 resolves the attribute
update_existing_record on the record service before calling it; with the
method absent the lookup raises AttributeError, which only the final
generic handler of commands.py lines 277-282 catches, returning exit code
1.  An empty queue never enters the loop. -/
def updatePhaseExitCode (toUpdate : List NetworkRecord) : Int :=
  if toUpdate = [] then 0
  else if recordServiceMethods.contains "update_existing_record" then 0
  else 1

/-- The exception ladder of Application.run (commands.py lines 254-282),
one case per handler in order: file errors 1, the access restriction 2,
other firewall errors 3, configuration errors 4, the user interrupt 130,
anything else 1. -/
inductive AppFailure where
  | fileOperation
  | firewallIPRestriction
  | firewallOther
  | configuration
  | keyboardInterrupt
  | unexpected
deriving DecidableEq

/-- Exit code per handled exception (commands.py lines 254-282). -/
def runExceptionExitCode : AppFailure → Int
  | AppFailure.fileOperation => 1
  | AppFailure.firewallIPRestriction => 2
  | AppFailure.firewallOther => 3
  | AppFailure.configuration => 4
  | AppFailure.keyboardInterrupt => 130
  | AppFailure.unexpected => 1

/-! ## Helper lemmas -/

/-- One record_result step adds one to total and one to exactly one
category counter. -/
theorem record_result_step (s : ProcessingSummary) (r : OperationResult) :
    ((s.record_result r).total = s.total + 1) ∧
    ((s.record_result r).successful + (s.record_result r).already_exists +
        (s.record_result r).failed + (s.record_result r).skipped =
      s.successful + s.already_exists + s.failed + s.skipped + 1) := by
  unfold ProcessingSummary.record_result
  cases r.status <;> simp <;> omega

/-- Folding results into a summary adds the list length to total and keeps
the category sum in step with it. -/
theorem fold_record_result (results : List OperationResult) :
    ∀ init : ProcessingSummary,
      ((results.foldl ProcessingSummary.record_result init).total =
        init.total + results.length) ∧
      ((results.foldl ProcessingSummary.record_result init).successful +
          (results.foldl ProcessingSummary.record_result init).already_exists +
          (results.foldl ProcessingSummary.record_result init).failed +
          (results.foldl ProcessingSummary.record_result init).skipped =
        init.successful + init.already_exists + init.failed + init.skipped +
          results.length) := by
  induction results with
  | nil => intro init; simp
  | cons r rest ih =>
    intro init
    have hstep := record_result_step init r
    have hrest := ih (init.record_result r)
    simp only [List.foldl_cons, List.length_cons]
    constructor
    · omega
    · omega

/-- The batch fold counts every processed record in total. -/
theorem process_batch_total {σ : Type} (ops : FwOps σ) (cfg : GroupConfiguration)
    (records : List NetworkRecord) :
    ∀ (init : ProcessingSummary) (s : σ),
      (records.foldl (batchStep ops cfg) (init, s)).1.total =
        init.total + records.length := by
  induction records with
  | nil => intro init s; simp
  | cons r rest ih =>
    intro init s
    simp only [List.foldl_cons, List.length_cons]
    have hstep := record_result_step init (process_record ops cfg s r).1
    have hrec := ih (init.record_result (process_record ops cfg s r).1)
      (process_record ops cfg s r).2
    have hshow : batchStep ops cfg (init, s) r =
        (init.record_result (process_record ops cfg s r).1,
          (process_record ops cfg s r).2) := rfl
    rw [hshow]
    omega

/-- pySplit never returns an empty list of parts. -/
theorem pySplit_ne_nil (x : Nat) (l : PyStr) : pySplit x l ≠ [] := by
  induction l with
  | nil => simp [pySplit]
  | cons c rest ih =>
    unfold pySplit
    by_cases h : c = x
    · simp [h]
    · simp only [if_neg h]
      cases hs : pySplit x rest with
      | nil => exact absurd hs ih
      | cons g gs => simp

/-- Appending one separator appends one empty part. -/
theorem pySplit_concat_sep (x : Nat) (l : PyStr) :
    pySplit x (l ++ [x]) = pySplit x l ++ [[]] := by
  induction l with
  | nil => simp [pySplit]
  | cons c rest ih =>
    by_cases h : c = x
    · subst h
      simp [pySplit, ih]
    · simp only [List.cons_append, pySplit, if_neg h, List.append_eq]
      cases hs : pySplit x rest with
      | nil => exact absurd hs (pySplit_ne_nil x rest)
      | cons g gs =>
        rw [ih, hs]
        simp

/-- The number of parts is the separator count plus one. -/
theorem pySplit_length (x : Nat) (l : PyStr) :
    (pySplit x l).length = l.count x + 1 := by
  induction l with
  | nil => simp [pySplit]
  | cons c rest ih =>
    by_cases h : c = x
    · subst c
      simp [pySplit, ih, List.count_cons]
    · simp only [pySplit, if_neg h]
      cases hs : pySplit x rest with
      | nil => exact absurd hs (pySplit_ne_nil x rest)
      | cons g gs =>
        rw [hs] at ih
        simp only [List.length_cons] at ih ⊢
        rw [List.count_cons]
        simp [h, ih]

/-- A list not ending in the stripped character is unchanged by pyRstrip. -/
theorem pyRstrip_of_getLast_ne (x : Nat) (l : PyStr) (h : l.getLast? ≠ some x) :
    pyRstrip x l = l := by
  unfold pyRstrip
  cases hl : l.reverse with
  | nil =>
    have hnil : l = [] := by simpa using congrArg List.reverse hl
    simp [hnil]
  | cons c cs =>
    have hgl : l.getLast? = some c := by
      rw [← List.head?_reverse, hl]; rfl
    have hcx : ¬ (c = x) := fun hh => h (by rw [hgl, hh])
    rw [List.dropWhile_cons]
    simp only [hcx, decide_False, Bool.false_eq_true, if_false]
    rw [← hl, List.reverse_reverse]

/-- pyRstrip absorbs one trailing occurrence of the stripped character. -/
theorem pyRstrip_concat (x : Nat) (l : PyStr) :
    pyRstrip x (l ++ [x]) = pyRstrip x l := by
  unfold pyRstrip
  rw [List.reverse_append]
  simp [List.dropWhile_cons]

/-- A list with a known last element decomposes as dropLast plus that
element. -/
theorem getLast?_decomp {α : Type} {l : List α} {a : α} (h : l.getLast? = some a) :
    l = l.dropLast ++ [a] := by
  have hne : l ≠ [] := by rintro rfl; simp at h
  have hg : l.getLast hne = a := by
    rw [List.getLast?_eq_getLast l hne] at h
    exact Option.some.inj h
  rw [← hg, List.dropLast_append_getLast hne]

/-- A list ending in a separator splits with a final empty part, which is no
label, so the all-labels test fails. -/
theorem split_trailing_sep_not_all_labelOk (l : PyStr) (h : l.getLast? = some 46) :
    (pySplit 46 l).all labelOk = false := by
  have hd := getLast?_decomp h
  conv_lhs => rw [hd]
  rw [pySplit_concat_sep]
  simp [List.all_append, labelOk]

/-- The pattern language test equals the specification-style test of 253
characters, labels and label count, away from the dead newline case of the
dollar anchor. -/
theorem fqdnCheck_eq_claim (n : PyStr) (h10 : n.getLast? ≠ some 10) :
    fqdnCheck n =
      (decide ((dropOneTrailing 46 n).length ≤ 253) &&
        (pySplit 46 (dropOneTrailing 46 n)).all labelOk &&
        decide ((pySplit 46 (dropOneTrailing 46 n)).length ≥ 2)) := by
  have hsearch : fqdnPatternSearch n = fqdnPatternMatch n := by
    unfold fqdnPatternSearch
    simp [h10]
  by_cases hA : fqdnPatternMatch n = true
  · have hu : pyRstrip 46 n = dropOneTrailing 46 n := by
      by_cases hd : n.getLast? = some 46
      · have hdecomp := getLast?_decomp hd
        have hu1 : dropOneTrailing 46 n = n.dropLast := by
          simp [dropOneTrailing, hd]
        have hlast2 : n.dropLast.getLast? ≠ some 46 := by
          intro hcon
          have hfail := split_trailing_sep_not_all_labelOk n.dropLast hcon
          unfold fqdnPatternMatch at hA
          rw [hu1] at hA
          rw [hA] at hfail
          simp at hfail
        calc pyRstrip 46 n = pyRstrip 46 (n.dropLast ++ [46]) := by rw [← hdecomp]
          _ = pyRstrip 46 n.dropLast := pyRstrip_concat _ _
          _ = n.dropLast := pyRstrip_of_getLast_ne _ _ hlast2
          _ = dropOneTrailing 46 n := hu1.symm
      · rw [pyRstrip_of_getLast_ne 46 n hd]
        simp [dropOneTrailing, hd]
    unfold fqdnCheck
    rw [hsearch, hu, hA]
    unfold fqdnPatternMatch at hA
    rw [pySplit_length, hA]
    by_cases hlen : (dropOneTrailing 46 n).length ≤ 253
    · have hgt : ¬ (dropOneTrailing 46 n).length > 253 := by omega
      simp [hlen, hgt]
    · have hgt : (dropOneTrailing 46 n).length > 253 := by omega
      simp [hlen, hgt]
  · have hA' : (pySplit 46 (dropOneTrailing 46 n)).all labelOk = false := by
      unfold fqdnPatternMatch at hA
      exact Bool.eq_false_iff.mpr hA
    unfold fqdnCheck
    rw [hsearch]
    unfold fqdnPatternMatch
    rw [hA']
    simp

/-- The head surviving a dropWhile fails the dropped predicate. -/
theorem head?_dropWhile {α : Type} (p : α → Bool) (l : List α) {c : α}
    (h : (l.dropWhile p).head? = some c) : p c = false := by
  induction l with
  | nil => simp [List.dropWhile] at h
  | cons a as ih =>
    rw [List.dropWhile_cons] at h
    by_cases hp : p a = true
    · rw [if_pos hp] at h
      exact ih h
    · rw [if_neg hp] at h
      simp only [List.head?_cons, Option.some.injEq] at h
      rw [← h]
      exact Bool.eq_false_iff.mpr hp

/-- A stripped string never ends in whitespace. -/
theorem pyStrip_getLast_not_space (l : PyStr) (c : Nat)
    (h : (pyStrip l).getLast? = some c) : pyIsSpace c = false := by
  unfold pyStrip at h
  rw [List.getLast?_reverse] at h
  exact head?_dropWhile _ _ h

/-- Mapping commutes with the optional last element. -/
theorem getLast?_map_eq {α β : Type} (f : α → β) (l : List α) :
    (l.map f).getLast? = l.getLast?.map f := by
  induction l with
  | nil => rfl
  | cons a as ih =>
    cases as with
    | nil => rfl
    | cons b bs =>
      simpa [List.map_cons, List.getLast?_cons_cons] using ih

/-- Removing the wildcard marker keeps the last element. -/
theorem getLast?_dropWildcard (l : PyStr) (c : Nat)
    (h : (dropWildcard l).getLast? = some c) : l.getLast? = some c := by
  unfold dropWildcard at h
  by_cases hw : l.take 2 = [42, 46]
  · rw [if_pos hw] at h
    have hne : l.drop 2 ≠ [] := by
      intro hnil
      rw [hnil] at h
      simp at h
    calc l.getLast? = (l.take 2 ++ l.drop 2).getLast? := by rw [List.take_append_drop]
      _ = (l.drop 2).getLast? := List.getLast?_append_of_ne_nil (l.take 2) hne
      _ = some c := h
  · rwa [if_neg hw] at h

/-- Only the newline lower-cases to the newline. -/
theorem pyLower_eq_ten {c : Nat} (h : pyLower c = 10) : c = 10 := by
  unfold pyLower at h
  by_cases hc : 65 ≤ c ∧ c ≤ 90
  · rw [if_pos hc] at h
    omega
  · rwa [if_neg hc] at h

/-- The normalised form of a stripped string never ends in a newline, so
the newline case of the dollar anchor is dead inside classify. -/
theorem normalized_no_newline (l : PyStr) :
    ((dropWildcard (pyStrip l)).map pyLower).getLast? ≠ some 10 := by
  intro h
  rw [getLast?_map_eq] at h
  cases hg : (dropWildcard (pyStrip l)).getLast? with
  | none => rw [hg] at h; simp at h
  | some c =>
    rw [hg] at h
    have hc : c = 10 := pyLower_eq_ten (Option.some.inj h)
    subst hc
    have hlast := getLast?_dropWildcard _ _ hg
    have hsp := pyStrip_getLast_not_space l 10 hlast
    simp [pyIsSpace] at hsp

/-- The embedded validator agrees with the specification-style FQDN
condition on every input whose normalised form does not end in a newline. -/
theorem fqdn_is_valid_eq_claim (l : PyStr)
    (h10 : ((dropWildcard l).map pyLower).getLast? ≠ some 10) :
    FQDNValidator.is_valid l = fqdnClaimValid l := by
  unfold FQDNValidator.is_valid fqdnClaimValid
  by_cases hl : l = []
  · subst hl
    decide
  · rw [if_neg hl]
    exact fqdnCheck_eq_claim _ h10

/-! ## Claim theorems -/

/-- C6: the code maintains the four-term accounting invariant.  Folding any
results r1..rn into a fresh ProcessingSummary via record_result leaves
total equal to n and equal to successful + already_exists + failed +
skipped, each result incrementing total exactly once and exactly one
category; the summary has no updated counter for the five-term sum the
claim names (see the divergence recorded for this claim). -/
theorem summary_invariant_four_terms (results : List OperationResult) :
    ((results.foldl ProcessingSummary.record_result {}).total = results.length) ∧
    ((results.foldl ProcessingSummary.record_result {}).total =
      (results.foldl ProcessingSummary.record_result {}).successful +
        (results.foldl ProcessingSummary.record_result {}).already_exists +
        (results.foldl ProcessingSummary.record_result {}).failed +
        (results.foldl ProcessingSummary.record_result {}).skipped) := by
  have h := fold_record_result results {}
  constructor
  · simpa using h.1
  · have h1 := h.1
    have h2 := h.2
    simp only [show ({} : ProcessingSummary).total = 0 from rfl] at h1
    simp only [show ({} : ProcessingSummary).successful = 0 from rfl,
      show ({} : ProcessingSummary).already_exists = 0 from rfl,
      show ({} : ProcessingSummary).failed = 0 from rfl,
      show ({} : ProcessingSummary).skipped = 0 from rfl] at h2
    omega

/-- C10: success_rate is total on its domain: it returns 0 when total = 0
and successful divided by total times 100 otherwise; the guard on total
precedes the division, so the division is never evaluated with a zero
divisor. -/
theorem success_rate_is_total (s : ProcessingSummary) :
    s.success_rate =
      some (if s.total = 0 then 0
            else ((s.successful : Rat) / (s.total : Rat)) * 100) := by
  unfold ProcessingSummary.success_rate pyDiv
  by_cases h : s.total = 0 <;> simp [h]

/-- C4: whenever ExistingRecordsCache.load returns false, every subsequent
exists lookup answers false for every record, whatever its value or type;
the fetch failure is caught inside load and never propagated. -/
theorem cache_load_false_fail_open (c : ExistingRecordsCache) (cl : FetchOutcomes)
    (c' : ExistingRecordsCache) (h : c.load cl = (c', false)) (r : NetworkRecord) :
    c'.exists r = false := by
  have hflag : c'.loaded = false := by
    unfold ExistingRecordsCache.load at h
    rcases cl with ⟨f, i, n⟩
    cases f with
    | error e => cases h; rfl
    | ok fv =>
      cases i with
      | error e => cases h; rfl
      | ok iv =>
        cases n with
        | error e => cases h; rfl
        | ok nv => simp at h
  unfold ExistingRecordsCache.exists
  simp [hflag]

/-- Witness for C4 at a concrete failing fetch: loading an empty cache with
a failing first fetch yields the failed cache, on which exists answers
false for a concrete record. -/
theorem cache_load_false_fail_open_witness :
    ExistingRecordsCache.exists ⟨[], [], [], false, true⟩
      ⟨pyOfString "8.8.8.8", RecordType.IP_ADDRESS⟩ = false :=
  cache_load_false_fail_open {} ⟨Except.error (), Except.ok [], Except.ok []⟩
    ⟨[], [], [], false, true⟩ rfl ⟨pyOfString "8.8.8.8", RecordType.IP_ADDRESS⟩

/-- C8: an Invalid record is answered Skipped immediately with the remote
state untouched for every collaborator model, and process_batch counts
every record, the skipped ones included, in the summary total. -/
theorem invalid_record_skipped_and_counted {σ : Type} (ops : FwOps σ)
    (cfg : GroupConfiguration) (s : σ) (r : NetworkRecord)
    (h : r.record_type = RecordType.INVALID) :
    (process_record ops cfg s r =
      (⟨r, OperationStatus.SKIPPED, "000", "Invalid record format"⟩, s)) ∧
    ∀ records : List NetworkRecord,
      (process_batch ops cfg s records).1.total = records.length := by
  constructor
  · unfold process_record
    have hv : r.is_valid = false := by
      unfold NetworkRecord.is_valid
      simp [h]
    simp [hv]
  · intro records
    have := process_batch_total ops cfg records {} s
    simpa [process_batch] using this

/-- A concrete collaborator model over a counter state: every create call
succeeds and bumps the counter. -/
def opsW : FwOps Nat :=
  ⟨fun r _ s => (⟨r, OperationStatus.SUCCESS, "200", "Created successfully"⟩, s + 1),
   fun r _ s => (⟨r, OperationStatus.SUCCESS, "200", "Created successfully"⟩, s + 1),
   fun r _ s => (⟨r, OperationStatus.SUCCESS, "200", "Created successfully"⟩, s + 1)⟩

/-- A concrete group configuration. -/
def cfgW : GroupConfiguration := ⟨"Test"⟩

/-- A concrete invalid record. -/
def invalidRec : NetworkRecord := ⟨pyOfString "not valid", RecordType.INVALID⟩

/-- A concrete FQDN record. -/
def fqdnRec : NetworkRecord := ⟨pyOfString "example.com", RecordType.FQDN⟩

/-- Witness for C8 at concrete inputs: the invalid record is skipped with
the state untouched, and a two-record batch has total 2. -/
theorem invalid_record_skipped_and_counted_witness :
    (process_record opsW cfgW 7 invalidRec =
      (⟨invalidRec, OperationStatus.SKIPPED, "000", "Invalid record format"⟩, 7)) ∧
    (process_batch opsW cfgW 7 [invalidRec, fqdnRec]).1.total = 2 :=
  ⟨(invalid_record_skipped_and_counted opsW cfgW 7 invalidRec rfl).1,
   (invalid_record_skipped_and_counted opsW cfgW 7 invalidRec rfl).2 [invalidRec, fqdnRec]⟩

/-- C9: the post-creation add-to-group step is the no-op the pass body
makes it: it can neither fail nor change the firewall state, and for every
valid record process_record returns exactly the create call result and the
create call state.  A Success result therefore never implies the host was
linked to its group. -/
theorem success_result_add_step_noop {σ : Type} (ops : FwOps σ)
    (cfg : GroupConfiguration) (s : σ) (r : NetworkRecord)
    (h : r.is_valid = true) :
    (∀ (g : String) (t : σ), add_to_group r g t = t) ∧
    ∀ g, get_group_for_record_type cfg r.record_type = some g →
      process_record ops cfg s r = createForRecord ops r g s := by
  constructor
  · intro g t; rfl
  · intro g hg
    unfold process_record
    rw [h]
    simp only [Bool.true_eq_false, if_false, hg]
    unfold add_to_group
    cases hsucc : (createForRecord ops r g s).1.succeeded <;> simp

/-- Witness for C9 at concrete inputs: the add step is the identity and the
FQDN record is answered by the bare create call. -/
theorem success_result_add_step_noop_witness :
    (add_to_group fqdnRec "Test_FQDNHostGroup" (5 : Nat) = 5) ∧
    process_record opsW cfgW 5 fqdnRec = createForRecord opsW fqdnRec "Test_FQDNHostGroup" 5 :=
  ⟨(success_result_add_step_noop opsW cfgW 5 fqdnRec rfl).1 "Test_FQDNHostGroup" 5,
   (success_result_add_step_noop opsW cfgW 5 fqdnRec rfl).2 "Test_FQDNHostGroup" (by decide)⟩

/-- C7: exists answers identically for two NetworkCIDR records whose values
renormalise to the same canonical network string, on every cache, because
the lookup renormalises the value before comparing (and the insertion side
extract_network_values stores the same normal form). -/
theorem cidr_exists_respects_normalization (c : ExistingRecordsCache)
    (r1 r2 : NetworkRecord) (h1 : r1.record_type = RecordType.NETWORK_CIDR)
    (h2 : r2.record_type = RecordType.NETWORK_CIDR)
    (hn : pyIpNetworkStr false r1.value = pyIpNetworkStr false r2.value) :
    c.exists r1 = c.exists r2 := by
  unfold ExistingRecordsCache.exists
  rw [h1, h2, hn]
  simp

/-- C3: for every string that is neither a valid CIDR nor a valid IP
address, classify returns FQDN exactly when the stripped value satisfies
the specification condition: after removing a single leading wildcard
marker and ignoring case, the value excluding an optional trailing dot is
at most 253 characters, consists of dot-separated labels of 1-63
alphanumeric-or-hyphen characters with no leading or trailing hyphen, and
has at least 2 labels; in particular the wildcard and plain example names
classify as FQDN while a single label and a 64-character label classify as
Invalid. -/
theorem fqdn_classification_characterized :
    (∀ s : String,
      NetworkCIDRValidator.is_valid (pyStrip (pyOfString s)) = false →
      IPAddressValidator.is_valid (pyStrip (pyOfString s)) = false →
      (((RecordClassifier.classify s).record_type = RecordType.FQDN) ↔
        fqdnClaimValid (pyStrip (pyOfString s)) = true)) ∧
    (RecordClassifier.classify "*.example.com").record_type = RecordType.FQDN ∧
    (RecordClassifier.classify "example.com").record_type = RecordType.FQDN ∧
    (RecordClassifier.classify "example").record_type = RecordType.INVALID ∧
    (RecordClassifier.classify
        (String.mk (List.replicate 64 (Char.ofNat 97)) ++ ".com")).record_type =
      RecordType.INVALID := by
  refine ⟨?_, by decide, by decide, by decide, by decide⟩
  intro s hcidr hip
  unfold RecordClassifier.classify classifyStripped
  rw [hcidr, hip]
  rw [fqdn_is_valid_eq_claim (pyStrip (pyOfString s))
    (normalized_no_newline (pyOfString s))]
  by_cases hf : fqdnClaimValid (pyStrip (pyOfString s)) = true
  · simp [hf]
  · have hf' : fqdnClaimValid (pyStrip (pyOfString s)) = false :=
      Bool.eq_false_iff.mpr hf
    simp [hf']

/-- Witness for C3 at a concrete input: the wildcard name is neither a
valid CIDR nor a valid IP address, it satisfies the specification
condition, and by the equivalence it classifies as FQDN. -/
theorem fqdn_classification_characterized_witness :
    (RecordClassifier.classify "*.example.com").record_type = RecordType.FQDN :=
  ((fqdn_classification_characterized.1 "*.example.com" (by decide) (by decide)).mpr
    (by decide))

/-- C2 (amended): classification follows the fixed priority order CIDR,
then IP address, then FQDN, else Invalid; every string whose stripped value
passes the strict CIDR validator (it contains a slash and parses as a
network with no host bits set below the mask) classifies as NetworkCIDR and
never as IPAddress. -/
theorem classify_priority_order (s : String) :
    (NetworkCIDRValidator.is_valid (pyStrip (pyOfString s)) = true →
      (RecordClassifier.classify s).record_type = RecordType.NETWORK_CIDR ∧
      (RecordClassifier.classify s).record_type ≠ RecordType.IP_ADDRESS) ∧
    (NetworkCIDRValidator.is_valid (pyStrip (pyOfString s)) = false →
      IPAddressValidator.is_valid (pyStrip (pyOfString s)) = true →
      (RecordClassifier.classify s).record_type = RecordType.IP_ADDRESS) ∧
    (NetworkCIDRValidator.is_valid (pyStrip (pyOfString s)) = false →
      IPAddressValidator.is_valid (pyStrip (pyOfString s)) = false →
      FQDNValidator.is_valid (pyStrip (pyOfString s)) = true →
      (RecordClassifier.classify s).record_type = RecordType.FQDN) ∧
    (NetworkCIDRValidator.is_valid (pyStrip (pyOfString s)) = false →
      IPAddressValidator.is_valid (pyStrip (pyOfString s)) = false →
      FQDNValidator.is_valid (pyStrip (pyOfString s)) = false →
      (RecordClassifier.classify s).record_type = RecordType.INVALID) := by
  refine ⟨?_, ?_, ?_, ?_⟩
  · intro hc
    unfold RecordClassifier.classify classifyStripped
    rw [hc]
    simp
  · intro hc hi
    unfold RecordClassifier.classify classifyStripped
    rw [hc, hi]
    simp
  · intro hc hi hf
    unfold RecordClassifier.classify classifyStripped
    rw [hc, hi, hf]
    simp
  · intro hc hi hf
    unfold RecordClassifier.classify classifyStripped
    rw [hc, hi, hf]
    simp

/-- Witness for C2 at the specification example: the all-ones-prefix CIDR
is strictly valid and classifies as NetworkCIDR, not IPAddress. -/
theorem classify_priority_order_witness :
    (RecordClassifier.classify "192.168.1.0/32").record_type = RecordType.NETWORK_CIDR ∧
    (RecordClassifier.classify "192.168.1.0/32").record_type ≠ RecordType.IP_ADDRESS :=
  (classify_priority_order "192.168.1.0/32").1 (by decide)

/-- Counterexample to C2 as stated: the string 192.168.1.5/24 contains a
slash, its network-address part parses as an IPv4 address and its prefix 24
is within range, yet strict network parsing rejects the set host bits, so
classify returns Invalid, not NetworkCIDR. -/
theorem classify_cidr_claim_counterexample :
    (pyOfString "192.168.1.5/24").contains 47 = true ∧
    (parseIPv4Address (pyOfString "192.168.1.5")).isSome = true ∧
    parsePrefixLen (pyOfString "24") 32 = some 24 ∧
    (RecordClassifier.classify "192.168.1.5/24").record_type = RecordType.INVALID ∧
    (RecordClassifier.classify "192.168.1.5/24").record_type ≠ RecordType.NETWORK_CIDR := by
  refine ⟨by decide, by decide, by decide, by decide, by decide⟩

/-- Witness for C7 at concrete inputs: a cache whose networks bucket was
filled through the insertion-side normaliser answers true both for the
canonical value and for the same network written with host bits set. -/
theorem cidr_exists_respects_normalization_witness :
    (ExistingRecordsCache.exists
        ⟨[], [], extract_network_values
          [(pyOfString "192.168.1.0", pyOfString "255.255.255.0")], true, false⟩
        ⟨pyOfString "192.168.1.0/24", RecordType.NETWORK_CIDR⟩ =
      ExistingRecordsCache.exists
        ⟨[], [], extract_network_values
          [(pyOfString "192.168.1.0", pyOfString "255.255.255.0")], true, false⟩
        ⟨pyOfString "192.168.1.5/24", RecordType.NETWORK_CIDR⟩) ∧
    ExistingRecordsCache.exists
        ⟨[], [], extract_network_values
          [(pyOfString "192.168.1.0", pyOfString "255.255.255.0")], true, false⟩
        ⟨pyOfString "192.168.1.0/24", RecordType.NETWORK_CIDR⟩ = true :=
  ⟨cidr_exists_respects_normalization _
      ⟨pyOfString "192.168.1.0/24", RecordType.NETWORK_CIDR⟩
      ⟨pyOfString "192.168.1.5/24", RecordType.NETWORK_CIDR⟩ rfl rfl (by decide),
   by decide⟩

/-- C1 (evidence for the code bug): the update-mode scenario reaches the
update path, but the code cannot run it.  The OperationStatus enumeration
has exactly four members, so no Updated value distinct from the others
exists; the record service defines no update_existing_record method, so the
loop of commands.py line 240 raises AttributeError and the modelled run
exits 1 instead of counting an update.  Concretely, a classified
example.com record that exists remotely but is not a group member is
partitioned into the update queue, which is nonempty. -/
theorem update_mode_updated_path_missing :
    Fintype.card OperationStatus = 4 ∧
    recordServiceMethods.contains "update_existing_record" = false ∧
    (partitionExisting
        ⟨[pyOfString "example.com"], [], [], true, false⟩
        [RecordClassifier.classify "example.com"]).1 =
      [RecordClassifier.classify "example.com"] ∧
    recordsToUpdate ⟨[], [], true⟩
        (partitionExisting
          ⟨[pyOfString "example.com"], [], [], true, false⟩
          [RecordClassifier.classify "example.com"]).1 =
      [RecordClassifier.classify "example.com"] ∧
    updatePhaseExitCode
        (recordsToUpdate ⟨[], [], true⟩
          (partitionExisting
            ⟨[pyOfString "example.com"], [], [], true, false⟩
            [RecordClassifier.classify "example.com"]).1) = 1 := by
  refine ⟨by decide, by decide, by decide, by decide, by decide⟩

/-- C5 (amended): every remote API error during per-record processing is
converted into an OperationResult and does not escape, except an error
whose message carries the access-restriction marker, which is raised and
mapped to exit code 2 by the run.  An unparseable error maps to
AlreadyExists exactly when its text carries a duplication substring, and to
Failed with the message preserved otherwise.  A parseable error is mapped
by its structured status code after the 502-with-duplication promotion:
code 501 gives AlreadyExists, code 200 gives Success, and any other code
gives Failed, even when the text mentions duplication. -/
theorem execute_operation_error_mapping (record : NetworkRecord) (e : ApiError) :
    (pyHasSub ipRestrictionMarker (pyOfString e.msg) = true →
      executeOperation record (CallOutcome.err e) =
        Except.error (FwError.ipRestriction e.msg)) ∧
    (pyHasSub ipRestrictionMarker (pyOfString e.msg) = false →
      ∀ d, e.asDict = some d →
        executeOperation record (CallOutcome.err e) = Except.ok (parseResponse d record)) ∧
    (pyHasSub ipRestrictionMarker (pyOfString e.msg) = false → e.asDict = none →
      containsAlreadyExists e.msg = true →
        executeOperation record (CallOutcome.err e) =
          Except.ok ⟨record, OperationStatus.ALREADY_EXISTS, "501", "Already exists"⟩) ∧
    (pyHasSub ipRestrictionMarker (pyOfString e.msg) = false → e.asDict = none →
      containsAlreadyExists e.msg = false → e.msg ≠ "" →
        executeOperation record (CallOutcome.err e) =
          Except.ok ⟨record, OperationStatus.FAILED, "502", e.msg⟩) ∧
    (∀ d : RespDict,
      ((parseResponse d record).status = OperationStatus.ALREADY_EXISTS ↔
        resolveCode d = "501")) ∧
    (∀ d : RespDict,
      ((parseResponse d record).status = OperationStatus.SUCCESS ↔
        resolveCode d = "200")) ∧
    (∀ d : RespDict,
      ((parseResponse d record).status = OperationStatus.FAILED ↔
        (resolveCode d ≠ "200" ∧ resolveCode d ≠ "501"))) ∧
    runExceptionExitCode AppFailure.firewallIPRestriction = 2 := by
  have hkey : ∀ d : RespDict,
      (parseResponse d record).status =
        (statusMapping (resolveCode d)).getD OperationStatus.FAILED := by
    intro d
    rfl
  refine ⟨?_, ?_, ?_, ?_, ?_, ?_, ?_, rfl⟩
  · intro hip
    simp [executeOperation, hip]
  · intro hip d hd
    simp [executeOperation, hip, hd]
  · intro hip hd hdup
    simp [executeOperation, hip, hd, hdup]
  · intro hip hd hdup hmsg
    simp [executeOperation, hip, hd, hdup, hmsg]
  · intro d
    rw [hkey d]
    unfold statusMapping
    by_cases h200 : resolveCode d = "200"
    · simp [h200]
    · by_cases h501 : resolveCode d = "501"
      · simp [h200, h501]
      · simp [h200, h501]
  · intro d
    rw [hkey d]
    unfold statusMapping
    by_cases h200 : resolveCode d = "200"
    · simp [h200]
    · by_cases h501 : resolveCode d = "501"
      · simp [h200, h501]
      · simp [h200, h501]
  · intro d
    rw [hkey d]
    unfold statusMapping
    by_cases h200 : resolveCode d = "200"
    · simp [h200]
    · by_cases h501 : resolveCode d = "501"
      · simp [h200, h501]
      · simp [h200, h501]

/-- A concrete access-restriction error. -/
def ipErrC5 : ApiError :=
  ⟨"API operations are not allowed from the requester IP 10.0.0.9", none⟩

/-- A concrete unparseable duplication error. -/
def dupErrC5 : ApiError :=
  ⟨"Operation failed. Entity having same name already exists", none⟩

/-- Witness for C5 at concrete inputs: the access-restriction error is
raised and maps to exit code 2, and the unparseable duplication error maps
to AlreadyExists. -/
theorem execute_operation_error_mapping_witness :
    executeOperation fqdnRec (CallOutcome.err ipErrC5) =
      Except.error (FwError.ipRestriction ipErrC5.msg) ∧
    executeOperation fqdnRec (CallOutcome.err dupErrC5) =
      Except.ok ⟨fqdnRec, OperationStatus.ALREADY_EXISTS, "501", "Already exists"⟩ ∧
    runExceptionExitCode AppFailure.firewallIPRestriction = 2 :=
  ⟨(execute_operation_error_mapping fqdnRec ipErrC5).1 (by decide),
   (execute_operation_error_mapping fqdnRec dupErrC5).2.2.1 (by decide) rfl (by decide),
   (execute_operation_error_mapping fqdnRec dupErrC5).2.2.2.2.2.2.2⟩

/-- A parseable error whose structured code is 503 while its text mentions
duplication. -/
def cexErr503 : ApiError :=
  ⟨"Status 503 Entity having same name already exists",
   some ⟨[("@code", "503"), ("#text", "Entity having same name already exists")],
         "Status 503 Entity having same name already exists"⟩⟩

/-- A parseable error whose structured code is 200. -/
def cexErr200 : ApiError :=
  ⟨"Status 200 Configuration applied successfully",
   some ⟨[("@code", "200"), ("#text", "Configuration applied successfully")],
         "Status 200 Configuration applied successfully"⟩⟩

/-- Counterexample to C5 as stated: an error carrying the duplication
substring in its raw text but structured code 503 maps to Failed, not
AlreadyExists, and an error parsing with structured code 200 maps to
Success, not Failed. -/
theorem execute_operation_claim_counterexample :
    (containsAlreadyExists cexErr503.msg = true ∧
      executeOperation fqdnRec (CallOutcome.err cexErr503) =
        Except.ok ⟨fqdnRec, OperationStatus.FAILED, "503",
          "Entity having same name already exists"⟩ ∧
      OperationStatus.FAILED ≠ OperationStatus.ALREADY_EXISTS) ∧
    (executeOperation fqdnRec (CallOutcome.err cexErr200) =
        Except.ok ⟨fqdnRec, OperationStatus.SUCCESS, "200",
          "Configuration applied successfully"⟩ ∧
      OperationStatus.SUCCESS ≠ OperationStatus.FAILED ∧
      OperationStatus.SUCCESS ≠ OperationStatus.ALREADY_EXISTS) :=
  ⟨⟨by decide, rfl, by decide⟩, rfl, by decide, by decide⟩

end SFM
